import Mathlib

/-!
Verification model of the nano-socket realtime messaging layer.

The definitions below are shallow embeddings of the TypeScript sources:
the envelope codec and event-name validator (src/utils), the server's
broadcast / room-directory operations (src/server/NanoSocket.ts and
src/server/NanoSocketConnection.ts), and the client state machine
(src/client/NanoSocketClient.ts).

Modelling conventions:
a JSON document is represented by the inductive `JValue` (the external
JSON library's parse/stringify pair is assumed to be a faithful
bijection between documents and their canonical texts, so the codec is
stated at the document level); `encodedLength` computes the length in
UTF-16 code units of the canonical `JSON.stringify` text of a document,
which is what the deserializer's 1 MiB raw-length guard inspects;
impure environment inputs (generated message ids, `Date.now()`, the
transport's buffered-byte counter, whether a transport send throws) are
explicit parameters or state fields; event-emitter notifications,
transport sends and thrown exceptions are returned as explicit effect
lists.
-/

namespace NanoSocketModel

/-- A JSON document, the wire format of the protocol.  Numbers are
modelled as integers: every value the claims mention (timestamps,
message payloads such as `0`) is integral. -/
inductive JValue where
  | null : JValue
  | bool : Bool → JValue
  | num : Int → JValue
  | str : String → JValue
  | arr : List JValue → JValue
  | obj : List (String × JValue) → JValue
deriving Repr

/-- JavaScript truthiness of a JSON value: `null`, `false`, `0` and the
empty string are falsy; every array and object (even empty) is truthy. -/
def truthy : JValue → Bool
  | .null => false
  | .bool b => b
  | .num n => n != 0
  | .str s => s != ""
  | .arr _ => true
  | .obj _ => true

/-- The `Message` interface from src/types: the wire envelope. -/
structure Message where
  event : String
  data : JValue
  id : Option String := none
  timestamp : Option Int := none
deriving Repr

/-- The reserved control-event names, from `isValidEventName` in src/utils. -/
def reservedEvents : List String :=
  ["connect", "disconnect", "error", "connecting", "reconnecting", "reconnect_failed"]

/-- `event.startsWith('$')` for the one-character sentinel prefix: true
exactly when the first character of the string is `$`. -/
def startsWithSentinel (event : String) : Bool :=
  match event.toList with
  | [] => false
  | c :: _ => c == '$'

/-- `event.includes('\0')`: the string contains the null character. -/
def containsNullByte (event : String) : Bool :=
  event.toList.contains (Char.ofNat 0)

/-- `isValidEventName` from src/utils: rejects the empty string, strings
starting with the sentinel character `$`, strings containing a null byte,
and the reserved control-event names. -/
def isValidEventName (event : String) : Bool :=
  if event.length = 0 then false
  else if startsWithSentinel event || containsNullByte event then false
  else !(reservedEvents.contains event)

/-- `serializeMessage` from src/utils: `JSON.stringify` of the message
object, at the document level.  Fields appear in the insertion order of
the TypeScript object literals (`event`, `data`, `id`, `timestamp`);
absent optional fields are omitted, as `JSON.stringify` omits
`undefined` properties. -/
def serializeMessage (m : Message) : JValue :=
  .obj ([("event", .str m.event), ("data", m.data)]
    ++ (match m.id with
        | some i => [("id", JValue.str i)]
        | none => [])
    ++ (match m.timestamp with
        | some t => [("timestamp", JValue.num t)]
        | none => []))

/-- First-match association lookup, the behaviour of reading a property
of a parsed JSON object. -/
def jlookup (fields : List (String × JValue)) (k : String) : Option JValue :=
  (fields.find? (fun p => p.1 == k)).map (fun p => p.2)

/-- Length in UTF-16 code units of one character of a JSON string as
`JSON.stringify` escapes it: `"` and `\` become two-character escapes,
control characters become either a two-character shorthand escape or a
six-character `\uXXXX` escape, astral characters occupy two code units,
and every other character one. -/
def escapedCharLength (c : Char) : Nat :=
  if c = '"' || c = '\\' then 2
  else if c.val < 0x20 then
    if c.val = 8 || c.val = 9 || c.val = 10 || c.val = 12 || c.val = 13 then 2 else 6
  else if c.val ≥ 0x10000 then 2 else 1

/-- Length of a JSON string literal as emitted by `JSON.stringify`:
the two quotes plus each character's escaped length. -/
def escapedStringLength (s : String) : Nat :=
  2 + (s.toList.map escapedCharLength).foldl (· + ·) 0

mutual

/-- Length in UTF-16 code units of the canonical `JSON.stringify` text
of a document.  This is the length of the raw string that
`deserializeMessage` receives when fed the output of
`serializeMessage`. -/
def encodedLength : JValue → Nat
  | .null => 4
  | .bool b => if b then 4 else 5
  | .num n => (toString n).length
  | .str s => escapedStringLength s
  | .arr xs => 2 + encodedLengthArr xs
  | .obj fs => 2 + encodedLengthObj fs

/-- Total length of the comma-separated element list of a JSON array. -/
def encodedLengthArr : List JValue → Nat
  | [] => 0
  | [x] => encodedLength x
  | x :: y :: xs => encodedLength x + 1 + encodedLengthArr (y :: xs)

/-- Total length of the comma-separated field list of a JSON object. -/
def encodedLengthObj : List (String × JValue) → Nat
  | [] => 0
  | [(k, v)] => escapedStringLength k + 1 + encodedLength v
  | (k, v) :: f :: fs => escapedStringLength k + 1 + encodedLength v + 1 + encodedLengthObj (f :: fs)

end

/-- `deserializeMessage` from src/utils.  `rawLen` is the length of the
raw input string (checked against the 1 MiB ceiling before parsing) and
`j` its parsed document.  The function then requires a truthy string
`event` property, validates the event name, and normalizes the `data`
property: kept when already an array, otherwise replaced by `[data]`
when truthy and by `[]` when falsy or absent.  The returned record
projects the unchanged-and-returned parsed object onto the declared
`Message` shape (the TypeScript code returns it through an unchecked
`as Message` cast). -/
def deserializeMessage (rawLen : Nat) (j : JValue) : Except String Message :=
  if rawLen > 1024 * 1024 then .error "Message too large"
  else
    match j with
    | .obj fields =>
      match jlookup fields "event" with
      | some (.str e) =>
        if e == "" then .error "Invalid message format: missing or invalid event"
        else if !(isValidEventName e) then .error ("Invalid event name: " ++ e)
        else .ok
          { event := e
            data :=
              match jlookup fields "data" with
              | some (.arr xs) => .arr xs
              | some v => if truthy v then .arr [v] else .arr []
              | none => .arr []
            id :=
              match jlookup fields "id" with
              | some (.str s) => some s
              | _ => none
            timestamp :=
              match jlookup fields "timestamp" with
              | some (.num t) => some t
              | _ => none }
      | _ => .error "Invalid message format: missing or invalid event"
    | _ => .error "Invalid message format: missing or invalid event"

/-- The `data` normalization applied by `deserializeMessage`, named so
the round-trip law can be stated against it. -/
def normalizeData : Option JValue → JValue
  | some (.arr xs) => .arr xs
  | some v => if truthy v then .arr [v] else .arr []
  | none => .arr []

/-- An envelope whose canonical encoding exceeds the 1 MiB decode
ceiling: 524288 zeros in the `data` array encode to 1048598 characters. -/
def bigEnvelope : Message :=
  { event := "x", data := .arr (List.replicate 524288 (.num 0)) }

/-- One live connection as the server-side send paths observe it:
its id, whether it still holds a transport channel (`this.ws`), the
channel's current buffered-byte count (`getBufferedAmount()`), and
whether a transport send would throw. -/
structure Conn where
  id : String
  hasWs : Bool := true
  bufferedAmount : Nat := 0
  sendThrows : Bool := false
deriving Repr, DecidableEq

/-- Observable effects of a send path: which connection ids were sent
the payload, which received a local backpressure error notification
(`Backpressure limit exceeded`), and which received a local error
notification from a caught transport-send exception. -/
structure SendEffects where
  sends : List String := []
  backpressureErrors : List String := []
  sendErrors : List String := []
deriving Repr, DecidableEq

/-- Concatenation of effects of successive sends. -/
def joinEffects (a b : SendEffects) : SendEffects :=
  { sends := a.sends ++ b.sends
    backpressureErrors := a.backpressureErrors ++ b.backpressureErrors
    sendErrors := a.sendErrors ++ b.sendErrors }

/-- `NanoSocketConnection.send`: returns silently without a channel;
otherwise compares the buffered amount against the hardcoded constant
`64 * 1024` (not the server's configured `maxBackpressure`): under it
the send is attempted (a throwing send is caught and reported as a
local error), at or over it the message is dropped and a local
`Backpressure limit exceeded` error is emitted. -/
def connSend (c : Conn) : SendEffects :=
  if c.hasWs = false then {}
  else if c.bufferedAmount < 64 * 1024 then
    (if c.sendThrows then { sendErrors := [c.id] } else { sends := [c.id] })
  else { backpressureErrors := [c.id] }

/-- `NanoSocketConnection.emit`: validates the event name (throwing
otherwise), builds an envelope with a fresh message id and the current
timestamp, serializes it and hands it to `send`. -/
def connEmit (c : Conn) (event : String) (args : List JValue) (msgId : String) (now : Int) :
    Except String (JValue × SendEffects) :=
  if !(isValidEventName event) then .error ("Invalid event name: " ++ event)
  else
    let message : Message :=
      { event := event, data := .arr args, id := some msgId, timestamp := some now }
    .ok (serializeMessage message, connSend c)

/-- First-match association lookup, the behaviour of `Map.get`. -/
def lookupAssoc {α : Type} (l : List (String × α)) (k : String) : Option α :=
  (l.find? (fun p => p.1 == k)).map (fun p => p.2)

/-- `Map.set` on a key already present: replace its value in place. -/
def setAssoc {α : Type} (l : List (String × α)) (k : String) (v : α) : List (String × α) :=
  l.map (fun p => if p.1 == k then (k, v) else p)

/-- `Map.set`: replace the value when the key is present, otherwise
append the binding in insertion order. -/
def upsertAssoc {α : Type} (l : List (String × α)) (k : String) (v : α) : List (String × α) :=
  if (l.find? (fun p => p.1 == k)).isSome then setAssoc l k v else l ++ [(k, v)]

/-- Server state as the room/broadcast subsystem observes it: the
connection registry (`this.connections`), the room directory
(`this.rooms`, room name to member-id set), each connection object's
local room set (`NanoSocketConnection.rooms`), the configured
`maxBackpressure`, and the current clock for `Date.now()`. -/
structure ServerState where
  connections : List Conn := []
  rooms : List (String × List String) := []
  connRooms : List (String × List String) := []
  maxBackpressure : Nat := 64 * 1024
  now : Int := 0
deriving Repr

/-- Loop body of `NanoSocket.broadcast` for one connection: inside a
try/catch, the payload is sent only when the connection has a channel
and its buffered amount is under the configured ceiling; when the
channel is gone or the buffered amount is at/over the ceiling, nothing
happens and nothing is reported.  When the send itself throws, the
catch block calls `connection.emit('error', error)` — the overridden
validating `NanoSocketConnection.emit`, not the inherited emitter — and
since `error` is a reserved name that call itself throws
`Invalid event name: error`, which escapes the loop.  The second
component is that escaping exception, if any. -/
def broadcastSendOne (maxBp : Nat) (c : Conn) : SendEffects × Option String :=
  if c.hasWs = true ∧ c.bufferedAmount < maxBp then
    (if c.sendThrows then ({}, some "Invalid event name: error")
     else ({ sends := [c.id] }, none))
  else ({}, none)

/-- The `for` loop of `NanoSocket.broadcast` over the registered
connections: an exception escaping one iteration aborts the rest of
the fan-out, keeping the effects of the completed iterations. -/
def broadcastFanout (maxBp : Nat) : List Conn → SendEffects × Option String
  | [] => ({}, none)
  | c :: rest =>
    match broadcastSendOne maxBp c with
    | (eff, some e) => (eff, some e)
    | (eff, none) =>
      let r := broadcastFanout maxBp rest
      (joinEffects eff r.1, r.2)

/-- Observable outcome of one broadcast call: the envelope that was
built and serialized (none when the call returns before building one),
the send effects performed, and the exception escaping the call, if
any. -/
structure BroadcastResult where
  envelope : Option JValue
  effects : SendEffects
  thrown : Option String
deriving Repr

/-- `NanoSocket.broadcast`: validates the event name (throwing
otherwise, before building anything), builds and serializes one
envelope, then runs the fan-out loop over every registered
connection. -/
def broadcast (st : ServerState) (event : String) (args : List JValue) : BroadcastResult :=
  if !(isValidEventName event) then
    { envelope := none, effects := {}, thrown := some ("Invalid event name: " ++ event) }
  else
    let message : Message := { event := event, data := .arr args, timestamp := some st.now }
    let r := broadcastFanout st.maxBackpressure st.connections
    { envelope := some (serializeMessage message), effects := r.1, thrown := r.2 }

/-- Inner body of the `NanoSocket.broadcastToRoom` loop once a
registered connection with a live channel is in hand: inside a
try/catch, send when under the ceiling and do nothing at/over it; a
throwing send enters the catch, whose `connection.emit('error', error)`
call itself throws `Invalid event name: error` (the overridden emit
validates and `error` is reserved), escaping the loop. -/
def roomSendOne (maxBp : Nat) (c : Conn) : SendEffects × Option String :=
  if c.bufferedAmount < maxBp then
    (if c.sendThrows then ({}, some "Invalid event name: error")
     else ({ sends := [c.id] }, none))
  else ({}, none)

/-- Fan-out loop of `NanoSocket.broadcastToRoom`: resolve each member
id through the registry, skipping ids with no registered connection or
no live channel; an exception escaping one iteration aborts the rest of
the fan-out, keeping the effects of the completed iterations. -/
def roomFanout (st : ServerState) : List String → SendEffects × Option String
  | [] => ({}, none)
  | sid :: rest =>
    match st.connections.find? (fun c => c.id == sid) with
    | some c =>
      if c.hasWs then
        match roomSendOne st.maxBackpressure c with
        | (eff, some e) => (eff, some e)
        | (eff, none) =>
          let r := roomFanout st rest
          (joinEffects eff r.1, r.2)
      else roomFanout st rest
    | none => roomFanout st rest

/-- `NanoSocket.broadcastToRoom`: returns immediately when the room is
absent or empty; otherwise builds and serializes one envelope — with no
event-name validation — and fans it out to the member ids. -/
def broadcastToRoom (st : ServerState) (roomName event : String) (args : List JValue) :
    BroadcastResult :=
  match lookupAssoc st.rooms roomName with
  | none => { envelope := none, effects := {}, thrown := none }
  | some members =>
    if members.isEmpty then { envelope := none, effects := {}, thrown := none }
    else
      let message : Message := { event := event, data := .arr args, timestamp := some st.now }
      let r := roomFanout st members
      { envelope := some (serializeMessage message), effects := r.1, thrown := r.2 }

/-- `NanoSocket.joinRoom`: create the room on first join, then add the
socket id to its member set (`Set.add`, no effect when present). -/
def joinRoom (st : ServerState) (sid roomName : String) : ServerState :=
  match lookupAssoc st.rooms roomName with
  | none => { st with rooms := st.rooms ++ [(roomName, [sid])] }
  | some members =>
    { st with rooms := setAssoc st.rooms roomName (if members.contains sid then members else members ++ [sid]) }

/-- `NanoSocket.leaveRoom`: remove the socket id from the room's member
set and delete the room when the set becomes empty. -/
def leaveRoom (st : ServerState) (sid roomName : String) : ServerState :=
  match lookupAssoc st.rooms roomName with
  | none => st
  | some members =>
    if (members.filter (fun x => x != sid)).isEmpty then
      { st with rooms := st.rooms.filter (fun p => p.1 != roomName) }
    else { st with rooms := setAssoc st.rooms roomName (members.filter (fun x => x != sid)) }

/-- `NanoSocket.removeConnection`: drop the connection from the
registry, remove its id from every room, then delete every room left
empty. -/
def removeConnection (st : ServerState) (sid : String) : ServerState :=
  let cleared := st.rooms.map (fun p => (p.1, p.2.filter (fun x => x != sid)))
  { st with
    connections := st.connections.filter (fun c => c.id != sid)
    rooms := cleared.filter (fun p => !p.2.isEmpty) }

/-- The local room set of connection `sid` (the connection object's
`rooms` field; empty for a connection that never joined). -/
def localRooms (st : ServerState) (sid : String) : List String :=
  (lookupAssoc st.connRooms sid).getD []

/-- The member set the directory records for a room (empty when the
room is absent). -/
def roomMembers (st : ServerState) (r : String) : List String :=
  (lookupAssoc st.rooms r).getD []

/-- Whether a room name is present in the room directory. -/
def hasRoom (st : ServerState) (r : String) : Bool :=
  (lookupAssoc st.rooms r).isSome

/-- `NanoSocketConnection.join`: a no-op when the room is already in
the connection's local set; otherwise add it locally, then notify the
server's room directory. -/
def connJoin (st : ServerState) (sid roomName : String) : ServerState :=
  if (localRooms st sid).contains roomName then st
  else
    let st2 := { st with
      connRooms := upsertAssoc st.connRooms sid (localRooms st sid ++ [roomName]) }
    joinRoom st2 sid roomName

/-- `NanoSocketConnection.leave`: a silent no-op when the room is not
in the connection's local set; otherwise remove it locally, then notify
the server's room directory. -/
def connLeave (st : ServerState) (sid roomName : String) : ServerState :=
  if (localRooms st sid).contains roomName then
    let st2 := { st with
      connRooms := setAssoc st.connRooms sid ((localRooms st sid).filter (fun x => x != roomName)) }
    leaveRoom st2 sid roomName
  else st

/-- `NanoSocketConnection.disconnect`, room-relevant part: leave every
room in the local set via the server, clear the local set, close the
transport channel. -/
def connDisconnect (st : ServerState) (sid : String) : ServerState :=
  let st2 := (localRooms st sid).foldl (fun s r => leaveRoom s sid r) st
  { st2 with
    connRooms := setAssoc st2.connRooms sid []
    connections := st2.connections.map (fun c => if c.id == sid then { c with hasWs := false } else c) }

/-- The room-mutating operations of the claim: connection-level join
and leave, unregistration (`removeConnection`), and connection
teardown (`disconnect`). -/
inductive RoomOp where
  | join (sid roomName : String)
  | leave (sid roomName : String)
  | unregister (sid : String)
  | teardown (sid : String)
deriving Repr

/-- Apply one room operation. -/
def applyRoomOp (st : ServerState) : RoomOp → ServerState
  | .join sid r => connJoin st sid r
  | .leave sid r => connLeave st sid r
  | .unregister sid => removeConnection st sid
  | .teardown sid => connDisconnect st sid

/-- Apply a sequence of room operations. -/
def applyRoomOps (st : ServerState) (ops : List RoomOp) : ServerState :=
  ops.foldl applyRoomOp st

/-- The newly constructed server: no connections, no rooms. -/
def initialServerState : ServerState := {}

/-- Directory invariant: no room in the directory has an empty member
set. -/
def RoomsNonempty (st : ServerState) : Prop :=
  ∀ p ∈ st.rooms, p.2 ≠ ([] : List String)

/-- Concrete server used by the room-broadcast counterexample and
witness: one registered connection `a` with an idle channel, and a room
`r` whose recorded members are `a` and the stale id `ghost` with no
registered connection. -/
def c3State : ServerState :=
  { connections := [{ id := "a" }]
    rooms := [("r", ["a", "ghost"])]
    connRooms := [("a", ["r"])] }

/-- One middleware, by its observable behaviour when the chain runner
awaits it: `none` means it called `next()` with no argument, `some e`
means it called `next(e)` and the runner's promise rejects with `e`.
The label identifies the middleware so a run can record which ones
executed. -/
structure Middleware where
  label : String
  decision : Option String
deriving Repr, DecidableEq

/-- `NanoSocket.runMiddlewares`: await each middleware in registration
order; the first rejection stops the loop.  Returns the labels of the
middlewares that were run and the first abort reason, if any. -/
def runMiddlewares : List Middleware → List String × Option String
  | [] => ([], none)
  | mw :: rest =>
    match mw.decision with
    | some e => ([mw.label], some e)
    | none =>
      let r := runMiddlewares rest
      (mw.label :: r.1, r.2)

/-- Observable outcome of accepting one transport connection. -/
structure ConnectionOutcome where
  middlewaresRun : List String
  connectionEmitted : Bool
  errorEmitted : Option String
  channelClosed : Bool
deriving Repr, DecidableEq

/-- `NanoSocket.handleConnection`: run the middleware chain; on success
emit the server-level `connection` event; on rejection disconnect the
connection (closing its channel) and emit the abort reason as a
server-level `error` event. -/
def handleConnection (mws : List Middleware) : ConnectionOutcome :=
  let r := runMiddlewares mws
  match r.2 with
  | none =>
    { middlewaresRun := r.1, connectionEmitted := true, errorEmitted := none,
      channelClosed := false }
  | some e =>
    { middlewaresRun := r.1, connectionEmitted := false, errorEmitted := some e,
      channelClosed := true }

/-- Client configuration with the constructor's defaults. -/
structure ClientOptions where
  autoConnect : Bool := true
  reconnection : Bool := true
  reconnectionAttempts : Nat := 5
  reconnectionDelay : Nat := 1000
  timeout : Nat := 20000
deriving Repr, DecidableEq

/-- The `ConnectionState` enum from src/types. -/
inductive ConnectionState where
  | disconnected
  | connecting
  | connected
  | reconnecting
deriving Repr, DecidableEq

/-- `NanoSocketClient` state: configuration, connection state, the
reconnect-attempt counter, the outbound queue of serialized envelopes,
whether a transport object is held, and whether a reconnect timer is
pending (with the delay it was scheduled with). -/
structure Client where
  options : ClientOptions := {}
  state : ConnectionState := .disconnected
  reconnectAttempts : Nat := 0
  messageQueue : List JValue := []
  hasWs : Bool := false
  timerPending : Bool := false
  pendingDelay : Nat := 0
deriving Repr

/-- Observable result of one client step: the next state, the local
notifications emitted (event name and arguments), the envelopes written
to the transport, how many transport connections were created, and the
exception thrown out of the step, if any. -/
structure StepOut where
  client : Client
  emitted : List (String × List JValue) := []
  sent : List JValue := []
  created : Nat := 0
  thrown : Option String := none
deriving Repr

/-- Sequencing of client steps: a thrown exception propagates and
aborts the continuation. -/
def seqOut (a : StepOut) (f : Client → StepOut) : StepOut :=
  match a.thrown with
  | some _ => a
  | none =>
    let b := f a.client
    { client := b.client, emitted := a.emitted ++ b.emitted, sent := a.sent ++ b.sent,
      created := a.created + b.created, thrown := b.thrown }

/-- `NanoSocketClient.emit`: the five events of the passthrough list
(note: `reconnect_failed` is not among them) dispatch locally through
the inherited emitter; any other event name is validated (throwing on
failure), built into an envelope with a fresh id and timestamp,
serialized, and either written to the transport (when connected with a
live socket) or appended to the outbound queue. -/
def clientEmit (c : Client) (event : String) (args : List JValue) (msgId : String) (now : Int) :
    Except String StepOut :=
  if event = "connect" ∨ event = "disconnect" ∨ event = "error" ∨ event = "connecting" ∨
      event = "reconnecting" then
    .ok { client := c, emitted := [(event, args)] }
  else if !(isValidEventName event) then .error ("Invalid event name: " ++ event)
  else
    let serialized := serializeMessage
      { event := event, data := .arr args, id := some msgId, timestamp := some now }
    if c.state = .connected ∧ c.hasWs = true then .ok { client := c, sent := [serialized] }
    else .ok { client := { c with messageQueue := c.messageQueue ++ [serialized] } }

/-- `this.emit(...)` as a step: an `InvalidEventError` becomes a thrown
exception. -/
def appEmitStep (c : Client) (event : String) (args : List JValue) (msgId : String) (now : Int) :
    StepOut :=
  match clientEmit c event args msgId now with
  | .ok out => out
  | .error msg => { client := c, thrown := some msg }

/-- Internal `this.emit(event, args)` notification calls
(`connecting`, `connect`, `disconnect`, `reconnecting`,
`reconnect_failed`).  These either hit the passthrough list or throw
before any envelope is built, so the id and timestamp parameters are
never consulted and dummies are passed. -/
def notifyEmit (c : Client) (event : String) (args : List JValue) : StepOut :=
  appEmitStep c event args "" 0

/-- `NanoSocketClient.connect`, synchronous prefix: resolve immediately
when already connected or connecting; otherwise move to `connecting`,
emit the `connecting` notification, and create a new transport
connection. -/
def connectStep (c : Client) : StepOut :=
  if c.state = .connected ∨ c.state = .connecting then { client := c }
  else
    let c2 := { c with state := .connecting }
    seqOut (notifyEmit c2 "connecting" []) (fun c3 =>
      { client := { c3 with hasWs := true }, created := 1 })

/-- `NanoSocketClient.flushMessageQueue`: while connected with a live
socket, shift and send every queued envelope in FIFO order. -/
def flushMessageQueue (c : Client) : StepOut :=
  if c.hasWs = true ∧ c.state = .connected then
    { client := { c with messageQueue := [] }, sent := c.messageQueue }
  else { client := c }

/-- The transport `onopen` callback: move to `connected`, reset the
reconnect counter, emit `connect`, flush the queue. -/
def onOpen (c : Client) : StepOut :=
  let c2 := { c with state := .connected, reconnectAttempts := 0 }
  seqOut (notifyEmit c2 "connect" []) flushMessageQueue

/-- `NanoSocketClient.attemptReconnection`: move to `reconnecting`,
bump the attempt counter, emit `reconnecting(attempt)`, and schedule
the backoff timer with delay `reconnectionDelay * attempt`. -/
def attemptReconnection (c : Client) : StepOut :=
  let c2 := { c with state := .reconnecting, reconnectAttempts := c.reconnectAttempts + 1 }
  seqOut (notifyEmit c2 "reconnecting" [.num (c2.reconnectAttempts : Int)]) (fun c3 =>
    let delay := c3.options.reconnectionDelay * c3.reconnectAttempts
    { client := { c3 with timerPending := true, pendingDelay := delay } })

/-- `NanoSocketClient.handleDisconnection` (the transport `onclose`
callback): move to `disconnected`, drop the socket, emit `disconnect`;
then either start a reconnection attempt (reconnection enabled, counter
under the limit, non-normal close code), or — when the counter has
reached the limit — emit `reconnect_failed` through `this.emit`. -/
def handleDisconnection (c : Client) (code : Nat) (reason : String) : StepOut :=
  let c2 := { c with state := .disconnected, hasWs := false }
  let reasonStr := if reason = "" then "Connection closed" else reason
  seqOut (notifyEmit c2 "disconnect" [.str reasonStr]) (fun c3 =>
    if c3.options.reconnection = true ∧ c3.reconnectAttempts < c3.options.reconnectionAttempts ∧
        code ≠ 1000 then
      attemptReconnection c3
    else if c3.options.reconnectionAttempts ≤ c3.reconnectAttempts then
      notifyEmit c3 "reconnect_failed" []
    else { client := c3 })

/-- The scheduled backoff timer firing: call `connect()`.  (The
`.catch` attached to that call only runs if the connect promise later
rejects through a transport error or timeout, which is not an input of
the modelled scenarios.) -/
def timerFire (c : Client) : StepOut :=
  if c.timerPending = true then connectStep { c with timerPending := false, pendingDelay := 0 }
  else { client := c }

/-- External stimuli of the client state machine. -/
inductive ClientInput where
  | connectCall
  | transportOpen
  | transportClose (code : Nat) (reason : String)
  | backoffElapsed
  | appEmit (event : String) (args : List JValue) (msgId : String) (now : Int)
deriving Repr

/-- Dispatch one input to the corresponding handler. -/
def clientStep (c : Client) : ClientInput → StepOut
  | .connectCall => connectStep c
  | .transportOpen => onOpen c
  | .transportClose code reason => handleDisconnection c code reason
  | .backoffElapsed => timerFire c
  | .appEmit event args msgId now => appEmitStep c event args msgId now

/-- Run a sequence of inputs, accumulating effects; a thrown exception
stops the run. -/
def runClient (c : Client) : List ClientInput → StepOut
  | [] => { client := c }
  | i :: rest => seqOut (clientStep c i) (fun c2 => runClient c2 rest)

/-- The client of the reconnection scenario:
`reconnectionAttempts = 2`, `reconnectionDelay = 100`. -/
def c5Client : Client :=
  { options := { reconnection := true, reconnectionAttempts := 2, reconnectionDelay := 100 } }

/-- The reconnection scenario's stimuli: an initial `connect()`, then
each created transport connection is immediately closed with the
non-normal code 1006; each pending backoff timer fires. -/
def c5Inputs : List ClientInput :=
  [.connectCall, .transportClose 1006 "", .backoffElapsed, .transportClose 1006 "",
   .backoffElapsed, .transportClose 1006 ""]

/-- A string of length zero is the empty string. -/
theorem string_eq_empty_of_length_eq_zero (s : String) (h : s.length = 0) : s = "" := by
  cases s with
  | mk data =>
    simp [String.length] at h
    simp [h]

/-- C7: `isValidEventName` is a pure predicate returning `false` for
exactly the empty string, strings whose first character is the reserved
sentinel `$`, strings containing a null byte, and the six reserved
control names; it accepts every other string. -/
theorem c7_isValidEventName_exact (e : String) :
    isValidEventName e = false ↔
      e = "" ∨ startsWithSentinel e = true ∨ containsNullByte e = true ∨ e ∈ reservedEvents := by
  constructor
  · intro h
    by_cases h0 : e.length = 0
    · exact Or.inl (string_eq_empty_of_length_eq_zero e h0)
    · by_cases h1 : (startsWithSentinel e || containsNullByte e) = true
      · simp only [Bool.or_eq_true] at h1
        rcases h1 with hs | hn
        · exact Or.inr (Or.inl hs)
        · exact Or.inr (Or.inr (Or.inl hn))
      · have hres : (!(reservedEvents.contains e)) = false := by
          unfold isValidEventName at h
          rw [if_neg h0, if_neg h1] at h
          exact h
        have hc : reservedEvents.contains e = true := by
          cases hcc : reservedEvents.contains e
          · rw [hcc] at hres
            simp at hres
          · rfl
        exact Or.inr (Or.inr (Or.inr (List.mem_of_elem_eq_true hc)))
  · intro h
    rcases h with rfl | hs | hn | hm
    · rfl
    · simp [isValidEventName, hs]
    · simp [isValidEventName, hn]
    · have hc : reservedEvents.contains e = true := List.elem_eq_true_of_mem hm
      simp [isValidEventName, hc, hm]

/-- C2 counterexample: the payload `{"event":"x","data":0}` carries the
bare falsy value `0`, and decode normalizes it to the empty sequence,
not to the one-element sequence `[0]` the claim requires (the code uses
JavaScript truthiness, `parsed.data ? [parsed.data] : []`). -/
theorem c2_counterexample :
    deserializeMessage 22 (.obj [("event", .str "x"), ("data", .num 0)]) =
      .ok { event := "x", data := .arr [], id := none, timestamp := none } ∧
    JValue.arr [] ≠ JValue.arr [.num 0] := by
  refine ⟨by rfl, ?_⟩
  intro hcontra
  injection hcontra with h2
  exact List.noConfusion h2

/-- C2 (amended): every payload accepted by decode has its `data` field
normalized as follows: an array is kept as is; an absent `data` becomes
the empty sequence; a truthy bare value `v` becomes the one-element
sequence `[v]`; and a falsy bare value (`null`, `false`, `0`, the empty
string) becomes the empty sequence. -/
theorem c2_data_normalization (rawLen : Nat) (fields : List (String × JValue)) (m : Message)
    (h : deserializeMessage rawLen (.obj fields) = .ok m) :
    (∀ xs, jlookup fields "data" = some (.arr xs) → m.data = .arr xs) ∧
    (jlookup fields "data" = none → m.data = .arr []) ∧
    (∀ v, jlookup fields "data" = some v → truthy v = true → (∀ xs, v ≠ .arr xs) →
      m.data = .arr [v]) ∧
    (∀ v, jlookup fields "data" = some v → truthy v = false → m.data = .arr []) := by
  simp only [deserializeMessage] at h
  split at h
  · simp at h
  · split at h
    · split at h
      · simp at h
      · split at h
        · simp at h
        · have hm : _ = m := (Except.ok.injEq _ _).mp h
          subst hm
          refine ⟨?_, ?_, ?_, ?_⟩
          · intro xs hx
            simp only [hx]
          · intro hx
            simp only [hx]
          · intro v hx htr hnotarr
            simp only [hx]
            cases v with
            | arr xs => exact absurd rfl (hnotarr xs)
            | null => simp [truthy] at htr
            | bool b => simp [htr]
            | num n => simp [htr]
            | str s => simp [htr]
            | obj fs => rfl
          · intro v hx htr
            simp only [hx]
            cases v with
            | arr xs => simp [truthy] at htr
            | null => rfl
            | bool b => simp [htr]
            | num n => simp [htr]
            | str s => simp [htr]
            | obj fs => simp [truthy] at htr
    · simp at h

/-- Witness for `c2_data_normalization` at the concrete accepted payload
`{"event":"x","data":[7]}`. -/
theorem c2_data_normalization_witness :
    deserializeMessage 24 (.obj [("event", .str "x"), ("data", .arr [.num 7])]) =
      .ok { event := "x", data := .arr [.num 7], id := none, timestamp := none } ∧
    ({ event := "x", data := .arr [.num 7], id := none, timestamp := none : Message }).data =
      .arr [.num 7] :=
  ⟨by rfl,
   (c2_data_normalization 24 [("event", .str "x"), ("data", .arr [.num 7])]
      { event := "x", data := .arr [.num 7], id := none, timestamp := none }
      (by rfl)).1 [.num 7] (by rfl)⟩

/-- C6 (amended): for every envelope with a valid event name whose
encoded text is within the 1 MiB decode ceiling, decoding the encoding
succeeds and returns the envelope with its `data` field normalized; in
particular it returns the envelope unchanged whenever `data` is already
a sequence. -/
theorem c6_roundtrip (m : Message) (hvalid : isValidEventName m.event = true)
    (hsize : encodedLength (serializeMessage m) ≤ 1024 * 1024) :
    deserializeMessage (encodedLength (serializeMessage m)) (serializeMessage m) =
      .ok { m with data := normalizeData (some m.data) } := by
  have hne : m.event ≠ "" := by
    intro he
    rw [he] at hvalid
    exact absurd hvalid (by decide)
  have hbeq : (m.event == "") = false := beq_eq_false_iff_ne.mpr hne
  have hguard : ¬ (encodedLength (serializeMessage m) > 1024 * 1024) := by omega
  obtain ⟨e, d, i, t⟩ := m
  cases i <;> cases t <;> cases d <;>
    simp_all [deserializeMessage, serializeMessage, jlookup, List.find?, normalizeData]

/-- Witness for `c6_roundtrip` at a concrete envelope carrying an id and
a timestamp, whose `data` is already a sequence, so decode returns it
exactly. -/
theorem c6_roundtrip_witness :
    isValidEventName "x" = true ∧
    encodedLength (serializeMessage
      { event := "x", data := .arr [.num 1], id := some "i", timestamp := some 5 }) ≤
      1024 * 1024 ∧
    deserializeMessage
      (encodedLength (serializeMessage
        { event := "x", data := .arr [.num 1], id := some "i", timestamp := some 5 }))
      (serializeMessage
        { event := "x", data := .arr [.num 1], id := some "i", timestamp := some 5 }) =
      .ok { event := "x", data := .arr [.num 1], id := some "i", timestamp := some 5 } :=
  ⟨by decide, by decide,
   c6_roundtrip { event := "x", data := .arr [.num 1], id := some "i", timestamp := some 5 }
     (by decide) (by decide)⟩

/-- Closed form for the encoded length of a nonempty array of zeros:
each zero is one character and elements are comma-separated. -/
theorem encodedLengthArr_replicate_zero (n : Nat) :
    encodedLengthArr (List.replicate (n + 1) (JValue.num 0)) = 2 * (n + 1) - 1 := by
  induction n with
  | zero => rfl
  | succ k ih =>
    have hrep : List.replicate (k + 2) (JValue.num 0) =
        JValue.num 0 :: JValue.num 0 :: List.replicate k (JValue.num 0) := by
      rw [List.replicate_succ, List.replicate_succ]
    rw [hrep, encodedLengthArr]
    have hone : encodedLength (JValue.num 0) = 1 := rfl
    rw [hone, ← List.replicate_succ, ih]
    omega

/-- C6 counterexample: `bigEnvelope` has a valid event name and
serializable data, yet decoding its encoding fails with the
"Message too large" guard rather than returning any envelope. -/
theorem c6_counterexample :
    isValidEventName bigEnvelope.event = true ∧
    deserializeMessage (encodedLength (serializeMessage bigEnvelope)) (serializeMessage bigEnvelope) =
      .error "Message too large" := by
  refine ⟨by decide, ?_⟩
  have harr : encodedLengthArr (List.replicate 524288 (JValue.num 0)) = 1048575 := by
    have h := encodedLengthArr_replicate_zero 524287
    norm_num at h
    exact h
  have hser : serializeMessage bigEnvelope =
      .obj [("event", .str "x"), ("data", .arr (List.replicate 524288 (.num 0)))] := rfl
  have hlen : encodedLength (serializeMessage bigEnvelope) = 1048598 := by
    rw [hser, encodedLength, encodedLengthObj, encodedLength]
    rw [encodedLengthObj, encodedLength, harr]
    decide
  rw [hlen, hser]
  simp [deserializeMessage]

/-- C1 counterexample: with the default configuration
(`maxBackpressure = 64 KiB`), broadcasting to a connection whose
buffered amount equals the ceiling sends nothing and reports nothing —
the drop is silent, with no backpressure error, where the claim
requires a reported error; and the connection-level send path drops
with a backpressure error at the hardcoded 64 KiB even though its
buffered amount (100000) would be under a configured ceiling of
128 KiB, where the claim requires the send to proceed. -/
theorem c1_counterexample :
    broadcast { connections := [{ id := "a", bufferedAmount := 64 * 1024 }] } "msg" [] =
      { envelope := some (.obj [("event", .str "msg"), ("data", .arr []), ("timestamp", .num 0)]),
        effects := { sends := [], backpressureErrors := [], sendErrors := [] },
        thrown := none } ∧
    connSend { id := "b", bufferedAmount := 100000 } =
      { sends := [], backpressureErrors := ["b"], sendErrors := [] } :=
  ⟨rfl, rfl⟩

/-- C1 (amended): the connection-level send path compares the buffered
amount against the hardcoded constant 64 KiB, not the configured
ceiling: under it a non-throwing send proceeds, at or over it the
message is dropped and a local backpressure error is emitted.  The
broadcast paths compare against the configured `maxBackpressure`:
at or over it the connection is skipped silently — dropped with no
error of any kind — and under it a non-throwing send proceeds.
`emit` validates the event name and routes the serialized envelope
through the send path. -/
theorem c1_backpressure_policy (c : Conn) (maxBp : Nat) :
    (c.hasWs = true → c.sendThrows = false → c.bufferedAmount < 64 * 1024 →
      connSend c = { sends := [c.id] }) ∧
    (c.hasWs = true → 64 * 1024 ≤ c.bufferedAmount →
      connSend c = { backpressureErrors := [c.id] }) ∧
    (maxBp ≤ c.bufferedAmount → broadcastSendOne maxBp c = ({}, none)) ∧
    (c.hasWs = true → c.sendThrows = false → c.bufferedAmount < maxBp →
      broadcastSendOne maxBp c = ({ sends := [c.id] }, none)) ∧
    (maxBp ≤ c.bufferedAmount → roomSendOne maxBp c = ({}, none)) ∧
    (c.sendThrows = false → c.bufferedAmount < maxBp →
      roomSendOne maxBp c = ({ sends := [c.id] }, none)) ∧
    (∀ (event : String) (args : List JValue) (msgId : String) (now2 : Int),
      isValidEventName event = true →
      connEmit c event args msgId now2 =
        .ok (serializeMessage { event := event, data := .arr args, id := some msgId, timestamp := some now2 }, connSend c)) := by
  refine ⟨?_, ?_, ?_, ?_, ?_, ?_, ?_⟩
  · intro hws hnothrow hlt
    simp [connSend, hws, hnothrow, hlt]
  · intro hws hge
    have hnlt : ¬ (c.bufferedAmount < 64 * 1024) := by omega
    simp [connSend, hws, hnlt]
  · intro hge
    have hcond : ¬ (c.hasWs = true ∧ c.bufferedAmount < maxBp) := by
      rintro ⟨h1, h2⟩
      omega
    simp [broadcastSendOne, hcond]
  · intro hws hnothrow hlt
    simp [broadcastSendOne, hws, hnothrow, hlt]
  · intro hge
    have hnlt : ¬ (c.bufferedAmount < maxBp) := by omega
    simp [roomSendOne, hnlt]
  · intro hnothrow hlt
    simp [roomSendOne, hnothrow, hlt]
  · intro event args msgId now2 hvalid
    simp [connEmit, hvalid]

/-- Witness for `c1_backpressure_policy`: an idle connection's direct
send proceeds, and both broadcast loop bodies with the default ceiling
silently skip a connection buffered at 70000 bytes. -/
theorem c1_backpressure_policy_witness :
    connSend { id := "w" } = { sends := ["w"], backpressureErrors := [], sendErrors := [] } ∧
    broadcastSendOne 65536 { id := "z", bufferedAmount := 70000 } =
      ({ sends := [], backpressureErrors := [], sendErrors := [] }, none) ∧
    roomSendOne 65536 { id := "q", bufferedAmount := 70000 } =
      ({ sends := [], backpressureErrors := [], sendErrors := [] }, none) :=
  ⟨(c1_backpressure_policy { id := "w" } 65536).1 rfl rfl (by decide),
   (c1_backpressure_policy { id := "z", bufferedAmount := 70000 } 65536).2.2.1 (by decide),
   (c1_backpressure_policy { id := "q", bufferedAmount := 70000 } 65536).2.2.2.2.1 (by decide)⟩

/-- Chain runner on a prefix of proceeding middlewares followed by an
aborting one: exactly the prefix and the aborting middleware run, and
the result carries the abort reason. -/
theorem runMiddlewares_abort (pre post : List Middleware) (mw : Middleware) (e : String)
    (hpre : ∀ m ∈ pre, m.decision = none) (habort : mw.decision = some e) :
    runMiddlewares (pre ++ mw :: post) =
      (pre.map (fun m => m.label) ++ [mw.label], some e) := by
  induction pre with
  | nil => simp [runMiddlewares, habort]
  | cons m rest ih =>
    have hm : m.decision = none := hpre m (List.mem_cons_self m rest)
    have hrest : ∀ x ∈ rest, x.decision = none := fun x hx => hpre x (List.mem_cons_of_mem m hx)
    simp [runMiddlewares, hm, ih hrest]

/-- C9: when a middleware aborts with an error, the middlewares after
it are never run, the server-level `connection` event is never emitted
for that connection, its transport channel is closed, and the abort
reason is surfaced as a server-level `error` event. -/
theorem c9_middleware_abort (pre post : List Middleware) (mw : Middleware) (e : String)
    (hpre : ∀ m ∈ pre, m.decision = none) (habort : mw.decision = some e) :
    handleConnection (pre ++ mw :: post) =
      { middlewaresRun := pre.map (fun m => m.label) ++ [mw.label]
        connectionEmitted := false
        errorEmitted := some e
        channelClosed := true } := by
  unfold handleConnection
  rw [runMiddlewares_abort pre post mw e hpre habort]

/-- Witness for `c9_middleware_abort`: one proceeding middleware, one
aborting with reason `denied`, one that never runs. -/
theorem c9_middleware_abort_witness :
    handleConnection [⟨"auth", none⟩, ⟨"block", some "denied"⟩, ⟨"later", none⟩] =
      { middlewaresRun := ["auth", "block"], connectionEmitted := false,
        errorEmitted := some "denied", channelClosed := true } :=
  c9_middleware_abort [⟨"auth", none⟩] [⟨"later", none⟩] ⟨"block", some "denied"⟩ "denied"
    (by
      intro m hm
      rw [List.mem_singleton] at hm
      subst hm
      rfl)
    rfl

/-- C10: calling `connect()` while already connected or connecting
resolves immediately: no transport connection is created, no
notification is emitted, nothing is thrown, and the state, the
reconnect-attempt counter and the outbound queue are unchanged. -/
theorem c10_connect_idempotent (c : Client)
    (h : c.state = ConnectionState.connected ∨ c.state = ConnectionState.connecting) :
    connectStep c = { client := c } := by
  unfold connectStep
  rw [if_pos h]

/-- Witness for `c10_connect_idempotent` on a connected client. -/
theorem c10_connect_idempotent_witness :
    connectStep { state := ConnectionState.connected } =
      { client := { state := ConnectionState.connected } } :=
  c10_connect_idempotent { state := ConnectionState.connected } (Or.inl rfl)

/-- C5 (the code evaluated at the failing input): with
`reconnectionAttempts = 2` and `reconnectionDelay = 100`, forcing every
created transport to close immediately with the non-normal code 1006
produces exactly the two `reconnecting` notifications with attempt
numbers 1 and 2 and leaves the client `disconnected`, but no
`reconnect_failed` notification is ever delivered: the final
`this.emit('reconnect_failed')` throws `Invalid event name:
reconnect_failed`, because the reserved-event passthrough list in the
client's `emit` omits that name while `isValidEventName` rejects it. -/
theorem c5_reconnect_failed_throws :
    ((runClient c5Client c5Inputs).emitted.filter (fun n => n.1 == "reconnecting")) =
      [("reconnecting", [.num 1]), ("reconnecting", [.num 2])] ∧
    ((runClient c5Client c5Inputs).emitted.filter (fun n => n.1 == "reconnect_failed")) = [] ∧
    (runClient c5Client c5Inputs).thrown = some "Invalid event name: reconnect_failed" ∧
    (runClient c5Client c5Inputs).client.state = ConnectionState.disconnected :=
  ⟨rfl, rfl, rfl, rfl⟩

/-- C8: an application emit performed while the client is not connected
appends the encoded envelope to the outbound queue and sends nothing;
the transition to connected (`onopen`) flushes the queue, sending
exactly the queued envelopes in their original FIFO order and emptying
the queue, so each is sent exactly once. -/
theorem c8_queue_fifo_flush :
    (∀ (c : Client) (event : String) (args : List JValue) (msgId : String) (now : Int),
      c.state ≠ ConnectionState.connected → isValidEventName event = true →
      clientEmit c event args msgId now =
        .ok { client := { c with messageQueue := c.messageQueue ++
          [serializeMessage { event := event, data := .arr args, id := some msgId, timestamp := some now }] } }) ∧
    (∀ c : Client, c.hasWs = true →
      onOpen c =
        { client := { c with state := ConnectionState.connected, reconnectAttempts := 0, messageQueue := [] },
          emitted := [("connect", [])], sent := c.messageQueue }) := by
  constructor
  · intro c event args msgId now hstate hvalid
    have hnp : ¬ (event = "connect" ∨ event = "disconnect" ∨ event = "error" ∨
        event = "connecting" ∨ event = "reconnecting") := by
      rintro (rfl | rfl | rfl | rfl | rfl) <;> exact absurd hvalid (by decide)
    have hwire : ¬ (c.state = ConnectionState.connected ∧ c.hasWs = true) := by
      rintro ⟨h1, h2⟩
      exact hstate h1
    simp [clientEmit, hnp, hvalid, hwire]
  · intro c hws
    simp [onOpen, notifyEmit, appEmitStep, clientEmit, flushMessageQueue, seqOut, hws]

/-- Witness for `c8_queue_fifo_flush`: an emit on a disconnected client
with one already-queued envelope appends behind it, and `onopen` sends
the queued envelope and empties the queue. -/
theorem c8_queue_fifo_flush_witness :
    clientEmit { messageQueue := [JValue.num 9] } "x" [] "i" 3 =
      .ok { client := { messageQueue := [JValue.num 9, serializeMessage { event := "x", data := .arr [], id := some "i", timestamp := some 3 }] } } ∧
    onOpen { hasWs := true, messageQueue := [JValue.num 9] } =
      { client := { hasWs := true, state := ConnectionState.connected, reconnectAttempts := 0, messageQueue := [] },
        emitted := [("connect", [])], sent := [JValue.num 9] } :=
  ⟨c8_queue_fifo_flush.1 { messageQueue := [JValue.num 9] } "x" [] "i" 3 (by decide) (by decide),
   c8_queue_fifo_flush.2 { hasWs := true, messageQueue := [JValue.num 9] } rfl⟩

/-- C3 counterexample: `connect` is an invalid event name and
`broadcast` rejects it before building anything, but `broadcastToRoom`
on the same server state performs no validation: it builds the envelope
and sends it to the room's registered member. -/
theorem c3_counterexample :
    isValidEventName "connect" = false ∧
    broadcast c3State "connect" [] =
      { envelope := none, effects := {}, thrown := some "Invalid event name: connect" } ∧
    broadcastToRoom c3State "r" "connect" [] =
      { envelope := some (.obj [("event", .str "connect"), ("data", .arr []), ("timestamp", .num 0)]),
        effects := { sends := ["a"], backpressureErrors := [], sendErrors := [] },
        thrown := none } :=
  ⟨rfl, rfl, rfl⟩

/-- The room fan-out loop is unaffected by member ids that resolve to
no registered connection: running it over all members — effects,
abort behaviour and all — equals running it over only the registered
ones. -/
theorem roomFanout_filter_registered (st : ServerState) (members : List String) :
    roomFanout st members =
      roomFanout st (members.filter
        (fun sid => (st.connections.find? (fun c => c.id == sid)).isSome)) := by
  induction members with
  | nil => rfl
  | cons sid rest ih =>
    cases hf : st.connections.find? (fun c => c.id == sid) with
    | some c => simp [roomFanout, List.filter_cons, hf, ih]
    | none => simp [roomFanout, List.filter_cons, hf, ih]

/-- C3 (amended): on an existing nonempty room, `broadcastToRoom`
builds and serializes the envelope for every event name — valid or
not; unlike `broadcast`, it performs no event-name validation and never
rejects — and then runs the fan-out, whose effects and abort behaviour
are exactly those of the fan-out over the registered member ids alone:
ids no longer registered are silently skipped, without error and
without aborting the fan-out over the remaining members.  On an absent
or empty room it returns without building anything. -/
theorem c3_room_broadcast (st : ServerState) (roomName event : String) (args : List JValue)
    (members : List String) (hmem : lookupAssoc st.rooms roomName = some members)
    (hne : members ≠ []) :
    broadcastToRoom st roomName event args =
      { envelope := some (serializeMessage
          { event := event, data := .arr args, timestamp := some st.now })
        effects := (roomFanout st (members.filter
          (fun sid => (st.connections.find? (fun c => c.id == sid)).isSome))).1
        thrown := (roomFanout st (members.filter
          (fun sid => (st.connections.find? (fun c => c.id == sid)).isSome))).2 } := by
  have hie : members.isEmpty = false := by
    cases members with
    | nil => exact absurd rfl hne
    | cons a l => rfl
  unfold broadcastToRoom
  rw [hmem]
  simp [hie]
  rw [roomFanout_filter_registered st members]
  exact ⟨rfl, rfl⟩

/-- Witness for `c3_room_broadcast` on `c3State`: the room's members
are `a` and the stale `ghost`; the fan-out reduces to the registered
member alone. -/
theorem c3_room_broadcast_witness :
    broadcastToRoom c3State "r" "hello" [] =
      { envelope := some (serializeMessage { event := "hello", data := .arr [], timestamp := some 0 })
        effects := (roomFanout c3State ["a"]).1
        thrown := (roomFanout c3State ["a"]).2 } :=
  (c3_room_broadcast c3State "r" "hello" [] ["a", "ghost"] rfl (by decide)).trans (by rfl)

/-- A value produced by an association-list lookup comes from a pair of
the list. -/
theorem mem_of_lookupAssoc {α : Type} {l : List (String × α)} {k : String} {v : α}
    (h : lookupAssoc l k = some v) : ∃ p ∈ l, p.2 = v := by
  unfold lookupAssoc at h
  cases hf : l.find? (fun p => p.1 == k) with
  | none =>
    rw [hf] at h
    simp at h
  | some p =>
    rw [hf] at h
    simp at h
    exact ⟨p, List.mem_of_find?_eq_some hf, h⟩

/-- A pair of an updated association list either carries the new value
or was already present. -/
theorem mem_setAssoc {α : Type} {l : List (String × α)} {k : String} {v : α} {q : String × α}
    (h : q ∈ setAssoc l k v) : q.2 = v ∨ q ∈ l := by
  unfold setAssoc at h
  rcases List.mem_map.mp h with ⟨p, hp, hq⟩
  by_cases hk : (p.1 == k) = true
  · rw [if_pos hk] at hq
    exact Or.inl (by rw [← hq])
  · rw [if_neg hk] at hq
    exact Or.inr (hq ▸ hp)

/-- `joinRoom` preserves the nonempty-rooms invariant. -/
theorem roomsNonempty_joinRoom {st : ServerState} (hInv : RoomsNonempty st) (sid r : String) :
    RoomsNonempty (joinRoom st sid r) := by
  intro p hp
  unfold joinRoom at hp
  cases hl : lookupAssoc st.rooms r with
  | none =>
    rw [hl] at hp
    simp at hp
    rcases hp with hp1 | hp2
    · exact hInv p hp1
    · rw [hp2]
      simp
  | some members =>
    rw [hl] at hp
    simp at hp
    have hmem : members ≠ [] := by
      rcases mem_of_lookupAssoc hl with ⟨q, hq, hqv⟩
      exact hqv ▸ hInv q hq
    rcases mem_setAssoc hp with h2 | h2
    · rw [h2]
      by_cases hc : sid ∈ members
      · simpa [hc] using hmem
      · simp [hc]
    · exact hInv p h2

/-- `leaveRoom` preserves the nonempty-rooms invariant. -/
theorem roomsNonempty_leaveRoom {st : ServerState} (hInv : RoomsNonempty st) (sid r : String) :
    RoomsNonempty (leaveRoom st sid r) := by
  intro p hp
  unfold leaveRoom at hp
  cases hl : lookupAssoc st.rooms r with
  | none =>
    rw [hl] at hp
    exact hInv p hp
  | some members =>
    by_cases hie : (members.filter (fun x => x != sid)).isEmpty = true
    · rw [hl] at hp
      simp only [hie, if_true] at hp
      rcases List.mem_filter.mp hp with ⟨hp1, -⟩
      exact hInv p hp1
    · rw [hl] at hp
      simp only [hie, if_false] at hp
      rcases mem_setAssoc hp with h2 | h2
      · rw [h2]
        intro hcontra
        exact absurd (by rw [hcontra]; rfl) hie
      · exact hInv p h2

/-- `removeConnection` restores the nonempty-rooms invariant outright:
every surviving room passed the nonempty filter. -/
theorem roomsNonempty_removeConnection (st : ServerState) (sid : String) :
    RoomsNonempty (removeConnection st sid) := by
  intro p hp
  rcases List.mem_filter.mp hp with ⟨-, hfilt⟩
  intro hcontra
  rw [hcontra] at hfilt
  simp at hfilt

/-- Folding `leaveRoom` over a list of rooms preserves the invariant. -/
theorem roomsNonempty_leaveRooms {st : ServerState} (hInv : RoomsNonempty st) (sid : String)
    (rs : List String) :
    RoomsNonempty (rs.foldl (fun s r => leaveRoom s sid r) st) := by
  induction rs generalizing st with
  | nil => exact hInv
  | cons r rest ih => exact ih (roomsNonempty_leaveRoom hInv sid r)

/-- Every room operation preserves the nonempty-rooms invariant. -/
theorem roomsNonempty_applyRoomOp {st : ServerState} (hInv : RoomsNonempty st) (op : RoomOp) :
    RoomsNonempty (applyRoomOp st op) := by
  cases op with
  | join sid r =>
    show RoomsNonempty (connJoin st sid r)
    unfold connJoin
    by_cases hc : (localRooms st sid).contains r = true
    · rw [if_pos hc]
      exact hInv
    · rw [if_neg hc]
      have hInv2 : RoomsNonempty { st with connRooms := upsertAssoc st.connRooms sid (localRooms st sid ++ [r]) } := fun p hp => hInv p hp
      exact roomsNonempty_joinRoom hInv2 sid r
  | leave sid r =>
    show RoomsNonempty (connLeave st sid r)
    unfold connLeave
    by_cases hc : (localRooms st sid).contains r = true
    · rw [if_pos hc]
      have hInv2 : RoomsNonempty { st with connRooms := setAssoc st.connRooms sid ((localRooms st sid).filter (fun x => x != r)) } := fun p hp => hInv p hp
      exact roomsNonempty_leaveRoom hInv2 sid r
    · rw [if_neg hc]
      exact hInv
  | unregister sid => exact roomsNonempty_removeConnection st sid
  | teardown sid =>
    show RoomsNonempty (connDisconnect st sid)
    intro p hp
    exact roomsNonempty_leaveRooms hInv sid (localRooms st sid) p hp

/-- Every sequence of room operations preserves the invariant. -/
theorem roomsNonempty_applyRoomOps {st : ServerState} (hInv : RoomsNonempty st)
    (ops : List RoomOp) : RoomsNonempty (applyRoomOps st ops) := by
  induction ops generalizing st with
  | nil => exact hInv
  | cons op rest ih => exact ih (roomsNonempty_applyRoomOp hInv op)

/-- Under the invariant, a room is present exactly when its member set
is nonempty. -/
theorem hasRoom_iff_members_ne_nil {st : ServerState} (hInv : RoomsNonempty st) (r : String) :
    hasRoom st r = true ↔ roomMembers st r ≠ [] := by
  unfold hasRoom roomMembers
  cases hl : lookupAssoc st.rooms r with
  | none => simp
  | some v =>
    simp
    rcases mem_of_lookupAssoc hl with ⟨q, hq, hqv⟩
    exact hqv ▸ hInv q hq

/-- C4: in every server state reachable from the initial state by any
sequence of connection-level join and leave, unregistration, and
connection-teardown operations: a room name is present in the directory
exactly when its member set is nonempty; joining an already-joined room
leaves the whole state — the connection's room set and the room's
membership included — unchanged; and leaving a not-joined room is a
silent no-op. -/
theorem c4_room_directory (ops : List RoomOp) :
    (∀ r, hasRoom (applyRoomOps initialServerState ops) r = true ↔
      roomMembers (applyRoomOps initialServerState ops) r ≠ []) ∧
    (∀ sid r, (localRooms (applyRoomOps initialServerState ops) sid).contains r = true →
      connJoin (applyRoomOps initialServerState ops) sid r = applyRoomOps initialServerState ops) ∧
    (∀ sid r, (localRooms (applyRoomOps initialServerState ops) sid).contains r = false →
      connLeave (applyRoomOps initialServerState ops) sid r = applyRoomOps initialServerState ops) := by
  have hInv : RoomsNonempty (applyRoomOps initialServerState ops) :=
    roomsNonempty_applyRoomOps (fun p hp => absurd hp (List.not_mem_nil p)) ops
  refine ⟨fun r => hasRoom_iff_members_ne_nil hInv r, ?_, ?_⟩
  · intro sid r hc
    unfold connJoin
    rw [if_pos hc]
  · intro sid r hc
    unfold connLeave
    have hnc : ¬ ((localRooms (applyRoomOps initialServerState ops) sid).contains r = true) := by
      rw [hc]
      simp
    rw [if_neg hnc]

/-- Witness for `c4_room_directory` after the single operation
`join a r`: room `r` has nonempty members, re-joining it changes
nothing, and leaving a never-joined room changes nothing. -/
theorem c4_room_directory_witness :
    roomMembers (applyRoomOps initialServerState [RoomOp.join "a" "r"]) "r" ≠ [] ∧
    connJoin (applyRoomOps initialServerState [RoomOp.join "a" "r"]) "a" "r" =
      applyRoomOps initialServerState [RoomOp.join "a" "r"] ∧
    connLeave (applyRoomOps initialServerState [RoomOp.join "a" "r"]) "b" "s" =
      applyRoomOps initialServerState [RoomOp.join "a" "r"] :=
  ⟨((c4_room_directory [RoomOp.join "a" "r"]).1 "r").mp (by rfl),
   (c4_room_directory [RoomOp.join "a" "r"]).2.1 "a" "r" (by rfl),
   (c4_room_directory [RoomOp.join "a" "r"]).2.2 "b" "s" (by rfl)⟩

end NanoSocketModel
